import Mathlib

/-!
Shallow embedding of the bakkes-rcon library (Python) in Lean 4, together
with theorems settling the specification claims about it.

The embedding follows the source files:
  - `bakkes_rcon/enums.py`     (StrEnum / PrettyStrEnum machinery)
  - `bakkes_rcon/inventory.py` (Quality, Slot, Paint, CertificationType,
                                SpecialEdition, Certification, InventoryItem,
                                wire transforms, certification tables)
  - `bakkes_rcon/client.py`    (BakkesRconClient request / authenticate)
  - `bakkes_rcon/util.py`      (quote_arg)

Python `int` is modelled as `Int`, Python `str` as `String`, fallible
construction as `Option`.
-/

set_option maxHeartbeats 1000000

namespace BakkesRcon

/-! ### Python string helpers used by the enum machinery -/

/-- Model of Python `str.title()` restricted to the character repertoire of
the enum wire values (ASCII letters and separators): a letter that follows a
letter is lowercased, a letter that follows a non-letter (or the start) is
uppercased, and non-letters pass through unchanged. -/
def pyTitleAux : Bool → List Char → List Char
  | _, [] => []
  | prevAlpha, c :: cs =>
    if c.isAlpha then
      (if prevAlpha then c.toLower else c.toUpper) :: pyTitleAux true cs
    else
      c :: pyTitleAux false cs

/-- Python `str.title()` on a whole string. -/
def pyTitle (s : String) : String := ⟨pyTitleAux false s.data⟩

/-- Model of Python `' '.join(components)`. -/
def joinSpace : List String → String
  | [] => ""
  | [x] => x
  | x :: y :: rest => x ++ " " ++ joinSpace (y :: rest)

/-! ### Quality (`inventory.py`, class `Quality`)

Members in source declaration order, each with its wire value (`_value_`).
`QualityEnumMeta.__call__` first remaps alternate wire names through
`QUALITY_ALT_NAMES`; `Quality.__init__` assigns `_sort_order_` as the number
of members already defined, i.e. the declaration index; `__int__` returns it
and `__lt__` compares by it. -/

inductive Quality
  | COMMON
  | UNCOMMON
  | RARE
  | VERY_RARE
  | IMPORT
  | EXOTIC
  | BLACK_MARKET
  | PREMIUM
  | LIMITED
  | LEGACY
deriving DecidableEq, Fintype, Repr

namespace Quality

/-- Wire value (`_value_`) of each member, from the source. -/
def value : Quality → String
  | COMMON => "Common"
  | UNCOMMON => "Uncommon"
  | RARE => "Rare"
  | VERY_RARE => "Very rare"
  | IMPORT => "Import"
  | EXOTIC => "Exotic"
  | BLACK_MARKET => "Black market"
  | PREMIUM => "Premium"
  | LIMITED => "Limited"
  | LEGACY => "Legacy"

/-- Members in source declaration order (the order of the class body). -/
def declarationOrder : List Quality :=
  [COMMON, UNCOMMON, RARE, VERY_RARE, IMPORT, EXOTIC, BLACK_MARKET, PREMIUM,
   LIMITED, LEGACY]

/-- `Quality.__int__`: `_sort_order_` is `len(__members__)` at the moment the
member is initialized, i.e. its index in the declaration order. -/
def toInt (q : Quality) : Nat := declarationOrder.indexOf q

/-- `Quality.__lt__`: compares `int(self) < int(other)`. -/
def lt (a b : Quality) : Bool := toInt a < toInt b

/-- `QUALITY_ALT_NAMES`: alternate wire names remapped before enum lookup. -/
def QUALITY_ALT_NAMES : List (String × String) :=
  [("BlackMarket", "Black market"), ("VeryRare", "Very rare")]

/-- `QualityEnumMeta.__call__` then enum lookup: remap the string through the
alternate-name table (`dict.get(value, value)`), then find the member whose
wire value matches; `None` models the `ValueError` of a failed lookup. -/
def fromString (s : String) : Option Quality :=
  let s := (QUALITY_ALT_NAMES.lookup s).getD s
  declarationOrder.find? (fun q => q.value = s)

/-- Pretty label: `PrettyStrEnum` defaults to `str.title()` of the wire value
(no member of `Quality` declares an explicit pretty string). -/
def pretty (q : Quality) : String := pyTitle q.value

end Quality

/-! ### Slot, Paint (`inventory.py`) -/

inductive Slot
  | ANIMATED_DECAL
  | ANTENNA
  | AVATAR_BORDER
  | BODY
  | CRATE
  | DECAL
  | ENGINE_AUDIO
  | GOAL_EXPLOSION
  | PAINT_FINISH
  | PLAYER_ANTHEM
  | PLAYER_BANNER
  | PLAYER_TITLE
  | ROCKET_BOOST
  | TOPPER
  | TRAIL
  | WHEELS
deriving DecidableEq, Fintype, Repr

namespace Slot

/-- Wire value of each `Slot` member, from the source. -/
def value : Slot → String
  | ANIMATED_DECAL => "Animated Decal"
  | ANTENNA => "Antenna"
  | AVATAR_BORDER => "Avatar Border"
  | BODY => "Body"
  | CRATE => "Crate"
  | DECAL => "Decal"
  | ENGINE_AUDIO => "Engine Audio"
  | GOAL_EXPLOSION => "Goal Explosion"
  | PAINT_FINISH => "Paint Finish"
  | PLAYER_ANTHEM => "Player Anthem"
  | PLAYER_BANNER => "Player Banner"
  | PLAYER_TITLE => "Player Title"
  | ROCKET_BOOST => "Rocket Boost"
  | TOPPER => "Topper"
  | TRAIL => "Trail"
  | WHEELS => "Wheels"

/-- Members in source declaration order. -/
def declarationOrder : List Slot :=
  [ANIMATED_DECAL, ANTENNA, AVATAR_BORDER, BODY, CRATE, DECAL, ENGINE_AUDIO,
   GOAL_EXPLOSION, PAINT_FINISH, PLAYER_ANTHEM, PLAYER_BANNER, PLAYER_TITLE,
   ROCKET_BOOST, TOPPER, TRAIL, WHEELS]

/-- Enum lookup by wire value (`Slot(s)`), `None` modelling `ValueError`. -/
def fromString (s : String) : Option Slot :=
  declarationOrder.find? (fun x => x.value = s)

/-- Pretty label: default `str.title()` of the wire value. -/
def pretty (x : Slot) : String := pyTitle x.value

end Slot

inductive Paint
  | BLACK
  | BURNT_SIENNA
  | COBALT
  | CRIMSON
  | FOREST_GREEN
  | GREY
  | LIME
  | ORANGE
  | PINK
  | PURPLE
  | SAFFRON
  | SKY_BLUE
  | TITANIUM_WHITE
deriving DecidableEq, Fintype, Repr

namespace Paint

/-- Wire value of each `Paint` member, from the source. -/
def value : Paint → String
  | BLACK => "Black"
  | BURNT_SIENNA => "Burnt Sienna"
  | COBALT => "Cobalt"
  | CRIMSON => "Crimson"
  | FOREST_GREEN => "Forest Green"
  | GREY => "Grey"
  | LIME => "Lime"
  | ORANGE => "Orange"
  | PINK => "Pink"
  | PURPLE => "Purple"
  | SAFFRON => "Saffron"
  | SKY_BLUE => "Sky Blue"
  | TITANIUM_WHITE => "Titanium White"

/-- Members in source declaration order. -/
def declarationOrder : List Paint :=
  [BLACK, BURNT_SIENNA, COBALT, CRIMSON, FOREST_GREEN, GREY, LIME, ORANGE,
   PINK, PURPLE, SAFFRON, SKY_BLUE, TITANIUM_WHITE]

/-- Enum lookup by wire value (`Paint(s)`), `None` modelling `ValueError`. -/
def fromString (s : String) : Option Paint :=
  declarationOrder.find? (fun x => x.value = s)

/-- Pretty label: default `str.title()` of the wire value. -/
def pretty (x : Paint) : String := pyTitle x.value

end Paint

/-! ### CertificationType (`inventory.py`) — 15 members in the source. -/

inductive CertificationType
  | AERIAL_GOALS
  | ASSISTS
  | BACKWARDS_GOALS
  | BICYCLE_GOALS
  | CENTERS
  | CLEARS
  | EPIC_SAVES
  | GOALS
  | JUGGLES
  | LONG_GOALS
  | MVPS
  | SAVES
  | SHOTS_ON_GOAL
  | TURTLE_GOALS
  | WINS
deriving DecidableEq, Fintype, Repr

namespace CertificationType

/-- Wire value of each member, from the source. -/
def value : CertificationType → String
  | AERIAL_GOALS => "AerialGoals"
  | ASSISTS => "Assists"
  | BACKWARDS_GOALS => "BackwardsGoals"
  | BICYCLE_GOALS => "BicycleGoals"
  | CENTERS => "Centers"
  | CLEARS => "Clears"
  | EPIC_SAVES => "EpicSaves"
  | GOALS => "Goals"
  | JUGGLES => "Juggles"
  | LONG_GOALS => "LongGoals"
  | MVPS => "MVPs"
  | SAVES => "Saves"
  | SHOTS_ON_GOAL => "ShotsOnGoal"
  | TURTLE_GOALS => "TurtleGoals"
  | WINS => "Wins"

/-- Explicit pretty labels declared in the source (second tuple component);
`none` where the member declares only a wire value. -/
def rawPretty : CertificationType → Option String
  | AERIAL_GOALS => some "Aerial Goals"
  | ASSISTS => none
  | BACKWARDS_GOALS => some "Backwards Goals"
  | BICYCLE_GOALS => some "Bicycle Goals"
  | CENTERS => none
  | CLEARS => none
  | EPIC_SAVES => some "Epic Saves"
  | GOALS => none
  | JUGGLES => none
  | LONG_GOALS => some "Long Goals"
  | MVPS => some "MVPs"
  | SAVES => none
  | SHOTS_ON_GOAL => some "Shots on Goal"
  | TURTLE_GOALS => some "Turtle Goals"
  | WINS => none

/-- Members in source declaration order. -/
def declarationOrder : List CertificationType :=
  [AERIAL_GOALS, ASSISTS, BACKWARDS_GOALS, BICYCLE_GOALS, CENTERS, CLEARS,
   EPIC_SAVES, GOALS, JUGGLES, LONG_GOALS, MVPS, SAVES, SHOTS_ON_GOAL,
   TURTLE_GOALS, WINS]

/-- Enum lookup by wire value (`CertificationType(s)`). -/
def fromString (s : String) : Option CertificationType :=
  declarationOrder.find? (fun x => x.value = s)

/-- Pretty label: the explicit label when declared, else `str.title()` of the
wire value (`PrettyStrEnum.__new__`). -/
def pretty (x : CertificationType) : String := (x.rawPretty).getD (pyTitle x.value)

end CertificationType

/-! ### SpecialEdition (`inventory.py`) -/

inductive SpecialEdition
  | INVERTED
  | HOLOGRAPHIC
  | INFINITE
deriving DecidableEq, Fintype, Repr

namespace SpecialEdition

/-- Wire value of each member, from the source. -/
def value : SpecialEdition → String
  | INVERTED => "Edition_Inverted"
  | HOLOGRAPHIC => "Edition_Holographic"
  | INFINITE => "Edition_Infinite"

/-- Members in source declaration order. -/
def declarationOrder : List SpecialEdition :=
  [INVERTED, HOLOGRAPHIC, INFINITE]

/-- Enum lookup by wire value (`SpecialEdition(s)`). -/
def fromString (s : String) : Option SpecialEdition :=
  declarationOrder.find? (fun x => x.value = s)

/-- `SpecialEdition._prettify_value`: `value.removeprefix('Edition_')`. -/
def stripEditionTag (s : String) : String :=
  if s.startsWith "Edition_" then s.drop 8 else s

/-- Pretty label: the overridden `_prettify_value` applied to the wire value. -/
def pretty (x : SpecialEdition) : String := stripEditionTag x.value

end SpecialEdition

/-! ### Certification (`inventory.py`, class `Certification` and its tables) -/

/-- `CERTIFICATION_TAGS`: fixed flavor name per certification type. -/
def CERTIFICATION_TAGS : CertificationType → String
  | .SHOTS_ON_GOAL => "Striker"
  | .CLEARS => "Sweeper"
  | .CENTERS => "Tactician"
  | .BICYCLE_GOALS => "Acrobat"
  | .AERIAL_GOALS => "Aviator"
  | .SAVES => "Goalkeeper"
  | .EPIC_SAVES => "Guardian"
  | .JUGGLES => "Juggler"
  | .ASSISTS => "Playmaker"
  | .GOALS => "Scorer"
  | .BACKWARDS_GOALS => "Show-Off"
  | .LONG_GOALS => "Sniper"
  | .TURTLE_GOALS => "Turtle"
  | .MVPS => "Paragon"
  | .WINS => "Victor"

/-- `_LEVELS_STRIKER_TO_TACTICIAN` threshold table. -/
def LEVELS_STRIKER_TO_TACTICIAN : List Int :=
  [0, 50, 100, 200, 500, 1000, 2000, 5000, 10000, 18000]

/-- `_LEVELS_ACROBAT_TO_TURTLE` threshold table. -/
def LEVELS_ACROBAT_TO_TURTLE : List Int :=
  [0, 25, 50, 100, 250, 500, 1000, 2500, 5000, 9000]

/-- `_LEVELS_PARAGON_VICTOR` threshold table. -/
def LEVELS_PARAGON_VICTOR : List Int :=
  [0, 10, 25, 50, 125, 250, 500, 1250, 2500, 4500]

/-- `CERTIFICATION_LEVELS`: per-type 10-entry ascending threshold table. -/
def CERTIFICATION_LEVELS : CertificationType → List Int
  | .SHOTS_ON_GOAL => LEVELS_STRIKER_TO_TACTICIAN
  | .CLEARS => LEVELS_STRIKER_TO_TACTICIAN
  | .CENTERS => LEVELS_STRIKER_TO_TACTICIAN
  | .BICYCLE_GOALS => LEVELS_ACROBAT_TO_TURTLE
  | .AERIAL_GOALS => LEVELS_ACROBAT_TO_TURTLE
  | .SAVES => LEVELS_ACROBAT_TO_TURTLE
  | .EPIC_SAVES => LEVELS_ACROBAT_TO_TURTLE
  | .JUGGLES => LEVELS_ACROBAT_TO_TURTLE
  | .ASSISTS => LEVELS_ACROBAT_TO_TURTLE
  | .GOALS => LEVELS_ACROBAT_TO_TURTLE
  | .BACKWARDS_GOALS => LEVELS_ACROBAT_TO_TURTLE
  | .LONG_GOALS => LEVELS_ACROBAT_TO_TURTLE
  | .TURTLE_GOALS => LEVELS_ACROBAT_TO_TURTLE
  | .MVPS => LEVELS_PARAGON_VICTOR
  | .WINS => LEVELS_PARAGON_VICTOR

/-- Common level names 1-5 (`_LEVEL_NAMES_1_TO_5`). -/
def LEVEL_NAMES_1_TO_5 : List String :=
  ["Certified", "Capable", "Skillful", "Veteran", "Fantastic"]

/-- `CERTIFICATION_LEVEL_NAMES`: per-type 10-entry level-name table. -/
def CERTIFICATION_LEVEL_NAMES : CertificationType → List String
  | .SHOTS_ON_GOAL =>
    LEVEL_NAMES_1_TO_5 ++ ["Incredible", "Absurd", "Unreal", "Unrelenting", "Berserker"]
  | .CLEARS =>
    LEVEL_NAMES_1_TO_5 ++
      ["Ridiculous", "Unbelievable", "Preposterous", "Stupendous", "Chief Custodian"]
  | .CENTERS =>
    LEVEL_NAMES_1_TO_5 ++
      ["Ridiculous", "Unbelievable", "Preposterous", "Tremendous", "Master Planner"]
  | .BICYCLE_GOALS =>
    LEVEL_NAMES_1_TO_5 ++
      ["Ridiculous", "Unbelievable", "Preposterous", "Astounding", "Cyclist"]
  | .AERIAL_GOALS =>
    LEVEL_NAMES_1_TO_5 ++
      ["Ridiculous", "Unbelievable", "Preposterous", "Impenetrable", "Immovable Object"]
  | .SAVES =>
    LEVEL_NAMES_1_TO_5 ++
      ["Ridiculous", "Unbelievable", "Preposterous", "Impenetrable", "Immovable Object"]
  | .EPIC_SAVES =>
    LEVEL_NAMES_1_TO_5 ++
      ["Ridiculous", "Unbelievable", "Preposterous", "Gallant", "Guardian Angel"]
  | .JUGGLES =>
    LEVEL_NAMES_1_TO_5 ++ ["Incredible", "Absurd", "Unreal", "Marvelous", "Magician"]
  | .ASSISTS =>
    LEVEL_NAMES_1_TO_5 ++ ["Incredible", "Absurd", "Unreal", "Psychic", "Unsung Hero"]
  | .GOALS =>
    LEVEL_NAMES_1_TO_5 ++
      ["Incredible", "Absurd", "Unreal", "Supersonic", "Unstoppable Force"]
  | .BACKWARDS_GOALS =>
    LEVEL_NAMES_1_TO_5 ++ ["Daring", "Relentless", "Exhausting", "Cheeky", "Total Showboat"]
  | .LONG_GOALS =>
    LEVEL_NAMES_1_TO_5 ++ ["Incredible", "Absurd", "Unreal", "Unforgiving", "Cold-Blooded"]
  | .TURTLE_GOALS =>
    LEVEL_NAMES_1_TO_5 ++
      ["Ridiculous", "Unbelievable", "Reckless", "Timeless", "Turtle God"]
  | .MVPS =>
    LEVEL_NAMES_1_TO_5 ++
      ["Determined", "Stunning", "Wonderful", "Eternal", "The Most Valuable"]
  | .WINS =>
    LEVEL_NAMES_1_TO_5 ++ ["Daring", "Relentless", "Fearless", "Valiant", "Unbeatable"]

/-- The Python generator consumed by `next(...)` in `Certification.__post_init__`:
scan a list of `(index, lower_bound)` pairs and return the first index whose
lower bound is at most the value; `none` models the `StopIteration` raised when
no pair matches. -/
def firstMatch (v : Int) : List (Nat × Int) → Option Nat
  | [] => none
  | (n, lowerBound) :: rest => if lowerBound ≤ v then some n else firstMatch v rest

/-- The level-index search of `Certification.__post_init__`:
`next(n for n, lb in reversed(tuple(enumerate(levels))) if value >= lb)`. -/
def levelIdx (levels : List Int) (v : Int) : Option Nat :=
  firstMatch v levels.enum.reverse

/-- `Certification` dataclass: declared fields plus the fields derived in
`__post_init__`. -/
structure Certification where
  type : CertificationType
  value : Int
  tag : String
  level : Nat
  level_name : String
deriving DecidableEq, Repr

namespace Certification

/-- `Certification(type, value)`: `__post_init__` derives `tag`, `level` and
`level_name`; `none` models the `StopIteration` escaping when the level search
finds no matching threshold. -/
def make (t : CertificationType) (v : Int) : Option Certification :=
  match levelIdx (CERTIFICATION_LEVELS t) v with
  | none => none
  | some idx =>
    some
      { type := t
        value := v
        tag := CERTIFICATION_TAGS t
        level := idx + 1
        level_name := (CERTIFICATION_LEVEL_NAMES t).getD idx "" }

/-- `Certification.__str__`: the final level's name stands alone; otherwise
level name followed by tag. -/
def str (c : Certification) : String :=
  if c.level = 10 then c.level_name else c.level_name ++ " " ++ c.tag

/-- `Certification.full_str`: the display string, a colon, the value and the
pretty form of the type. -/
def full_str (c : Certification) : String :=
  c.str ++ ": " ++ toString c.value ++ " " ++ c.type.pretty

end Certification

/-- Level reported by constructing a certification: `Certification(t, v).level`. -/
def certLevel (t : CertificationType) (v : Int) : Option Nat :=
  (Certification.make t v).map Certification.level

/-! ### Wire value transforms (`inventory.py`, module-level functions) -/

/-- `transform_raw_optional_str`: `None if s == 'none' else s`. -/
def transform_raw_optional_str (s : String) : Option String :=
  if s = "none" then none else some s

/-- `transform_raw_bool`: `True if s == 'true' else False`. -/
def transform_raw_bool (s : String) : Bool :=
  if s = "true" then true else false

/-- `none_if_zero`: `n or None` on an integer, so `0` maps to absent. -/
def none_if_zero (n : Int) : Option Int :=
  if n = 0 then none else some n

/-- `none_if_empty`: `s or None` on a string, so `''` maps to absent. -/
def none_if_empty (s : String) : Option String :=
  if s = "" then none else some s

/-! ### InventoryItem (`inventory.py`, class `InventoryItem`) -/

/-- A raw wire value in a `RawInventoryItem` record (`types.py`): the wire
schema carries only strings and integers. -/
inductive RawValue
  | str (s : String)
  | int (n : Int)
deriving DecidableEq, Repr

/-- A raw inventory record as decoded from JSON: an association of field
names to raw wire values (Python `dict` with distinct keys). -/
def RawRecord := List (String × RawValue)

/-- An attribute value after the per-field `RAW_ITEM_TRANSFORMS` pass: the
transforms introduce optional strings, optional integers and booleans. -/
inductive AttrValue
  | str (s : String)
  | int (n : Int)
  | optStr (s : Option String)
  | optInt (n : Option Int)
  | bool (b : Bool)
deriving DecidableEq, Repr

namespace AttrValue

/-- Extract a plain string, failing on any other shape. -/
def asStr : AttrValue → Option String
  | .str s => some s
  | _ => none

/-- Extract a plain integer, failing on any other shape. -/
def asInt : AttrValue → Option Int
  | .int n => some n
  | _ => none

/-- Extract an optional string, failing on any other shape. -/
def asOptStr : AttrValue → Option (Option String)
  | .optStr s => some s
  | _ => none

/-- Extract an optional integer, failing on any other shape. -/
def asOptInt : AttrValue → Option (Option Int)
  | .optInt n => some n
  | _ => none

/-- Extract a boolean, failing on any other shape. -/
def asBool : AttrValue → Option Bool
  | .bool b => some b
  | _ => none

end AttrValue

/-- `RAW_ITEM_TRANSFORMS` applied to one named field: the per-field transform
when the name is listed in the table, identity otherwise. Each transform is
applied at the wire type the schema gives its field. -/
def applyTransform (name : String) (v : RawValue) : AttrValue :=
  match name, v with
  | "paint", .str s => .optStr (transform_raw_optional_str s)
  | "certification", .str s => .optStr (transform_raw_optional_str s)
  | "rank_label", .str s => .optStr (transform_raw_optional_str s)
  | "special_edition", .str s => .optStr (transform_raw_optional_str s)
  | "crate", .str s => .optStr (none_if_empty s)
  | "blueprint_item", .str s => .optStr (none_if_empty s)
  | "blueprint_item_id", .int n => .optInt (none_if_zero n)
  | "blueprint_cost", .int n => .optInt (none_if_zero n)
  | "tradeable", .str s => .bool (transform_raw_bool s)
  | _, .str s => .str s
  | _, .int n => .int n

/-- The sixteen parameter names of `InventoryItem.__init__`, in order; none
of them carries a default, so `cls(**attrs)` binds each exactly once. -/
def INIT_PARAM_NAMES : List String :=
  ["product_id", "name", "slot", "paint", "certification", "certification_value",
   "rank_label", "quality", "crate", "amount", "instance_id", "special_edition",
   "blueprint_item_id", "blueprint_item", "blueprint_cost", "tradeable"]

/-- Keyword-argument binding check for `cls(**attrs)`: every parameter name
occurs exactly once among the attribute keys and no key falls outside the
parameter list (Python raises `TypeError` otherwise). -/
def kwargsOk (attrs : List (String × AttrValue)) : Bool :=
  INIT_PARAM_NAMES.all (fun p => (attrs.map Prod.fst).count p = 1)
    && attrs.all (fun kv => INIT_PARAM_NAMES.contains kv.1)

/-- The `InventoryItem` record with its fields at their normalized types
(the state after `__init__` ran successfully on schema-shaped input). -/
structure InventoryItem where
  product_id : Int
  name : String
  slot : Slot
  paint : Option Paint
  certification : Option Certification
  certification_value : Int
  rank_label : Option String
  quality : Quality
  crate : Option String
  amount : Int
  instance_id : Int
  special_edition : Option SpecialEdition
  blueprint_item_id : Option Int
  blueprint_item : Option String
  blueprint_cost : Option Int
  tradeable : Bool
deriving DecidableEq, Repr

/-- Attribute lookup coerced to a plain string. -/
def attrStr (attrs : List (String × AttrValue)) (name : String) : Option String :=
  (attrs.lookup name).bind AttrValue.asStr

/-- Attribute lookup coerced to a plain integer. -/
def attrInt (attrs : List (String × AttrValue)) (name : String) : Option Int :=
  (attrs.lookup name).bind AttrValue.asInt

/-- Attribute lookup coerced to an optional string. -/
def attrOptStr (attrs : List (String × AttrValue)) (name : String) : Option (Option String) :=
  (attrs.lookup name).bind AttrValue.asOptStr

/-- Attribute lookup coerced to an optional integer. -/
def attrOptInt (attrs : List (String × AttrValue)) (name : String) : Option (Option Int) :=
  (attrs.lookup name).bind AttrValue.asOptInt

/-- Attribute lookup coerced to a boolean. -/
def attrBool (attrs : List (String × AttrValue)) (name : String) : Option Bool :=
  (attrs.lookup name).bind AttrValue.asBool

/-- First half of the fields bound by `InventoryItem.__init__`
(`product_id` through `quality`), after conversion. -/
structure ItemFieldsHead where
  product_id : Int
  name : String
  slot : Slot
  paint : Option Paint
  certification : Option Certification
  certification_value : Int
  rank_label : Option String
  quality : Quality
deriving DecidableEq, Repr

/-- Second half of the fields bound by `InventoryItem.__init__`
(`crate` through `tradeable`), after conversion. -/
structure ItemFieldsTail where
  crate : Option String
  amount : Int
  instance_id : Int
  special_edition : Option SpecialEdition
  blueprint_item_id : Option Int
  blueprint_item : Option String
  blueprint_cost : Option Int
  tradeable : Bool
deriving DecidableEq, Repr

/-- Conversion of the first eight `__init__` parameters: raw strings go
through the enum constructors (`Slot(slot)`, `Paint(paint)`,
`Quality(quality)`), and a present certification type string is combined with
`certification_value` into a `Certification`; any failure aborts. -/
def buildItemHead (attrs : List (String × AttrValue)) : Option ItemFieldsHead := do
  let product_id ← attrInt attrs "product_id"
  let name ← attrStr attrs "name"
  let slotS ← attrStr attrs "slot"
  let slot ← Slot.fromString slotS
  let paintO ← attrOptStr attrs "paint"
  let paint ← match paintO with
    | none => some none
    | some s => (Paint.fromString s).map some
  let certO ← attrOptStr attrs "certification"
  let certification_value ← attrInt attrs "certification_value"
  let certification ← match certO with
    | none => some none
    | some s =>
      (CertificationType.fromString s).bind
        (fun t => (Certification.make t certification_value).map some)
  let rank_label ← attrOptStr attrs "rank_label"
  let qualityS ← attrStr attrs "quality"
  let quality ← Quality.fromString qualityS
  some { product_id, name, slot, paint, certification, certification_value,
         rank_label, quality }

/-- Conversion of the last eight `__init__` parameters
(`SpecialEdition(special_edition)` is the only enum conversion here). -/
def buildItemTail (attrs : List (String × AttrValue)) : Option ItemFieldsTail := do
  let crate ← attrOptStr attrs "crate"
  let amount ← attrInt attrs "amount"
  let instance_id ← attrInt attrs "instance_id"
  let specialO ← attrOptStr attrs "special_edition"
  let special_edition ← match specialO with
    | none => some none
    | some s => (SpecialEdition.fromString s).map some
  let blueprint_item_id ← attrOptInt attrs "blueprint_item_id"
  let blueprint_item ← attrOptStr attrs "blueprint_item"
  let blueprint_cost ← attrOptInt attrs "blueprint_cost"
  let tradeable ← attrBool attrs "tradeable"
  some { crate, amount, instance_id, special_edition, blueprint_item_id,
         blueprint_item, blueprint_cost, tradeable }

/-- The body of `InventoryItem.__init__` on transformed attributes: binds and
converts all sixteen fields; any failed conversion aborts construction. -/
def buildItem (attrs : List (String × AttrValue)) : Option InventoryItem := do
  let h ← buildItemHead attrs
  let t ← buildItemTail attrs
  some
    { product_id := h.product_id, name := h.name, slot := h.slot,
      paint := h.paint, certification := h.certification,
      certification_value := h.certification_value, rank_label := h.rank_label,
      quality := h.quality, crate := t.crate, amount := t.amount,
      instance_id := t.instance_id, special_edition := t.special_edition,
      blueprint_item_id := t.blueprint_item_id,
      blueprint_item := t.blueprint_item, blueprint_cost := t.blueprint_cost,
      tradeable := t.tradeable }

/-- `InventoryItem.from_raw_item`: apply the per-field transforms to the raw
record, then construct via `cls(**attrs)` — which fails when the keys do not
bind the sixteen parameters exactly, or when a field conversion fails. -/
def from_raw_item (record : RawRecord) : Option InventoryItem :=
  let attrs := record.map (fun kv => (kv.1, applyTransform kv.1 kv.2))
  if kwargsOk attrs then buildItem attrs else none

namespace InventoryItem

/-- `InventoryItem.item_id`: `self.blueprint_item_id or self.product_id`
(a present-but-zero blueprint id is falsy and falls back). -/
def item_id (it : InventoryItem) : Int :=
  match it.blueprint_item_id with
  | some n => if n = 0 then it.product_id else n
  | none => it.product_id

/-- `InventoryItem.item_name`: `self.blueprint_item or self.name`
(a present-but-empty blueprint name is falsy and falls back). -/
def item_name (it : InventoryItem) : String :=
  match it.blueprint_item with
  | some s => if s = "" then it.name else s
  | none => it.name

/-- `InventoryItem.__str__`: the component list (slot wire value with a colon,
effective item name, bracketed quality pretty label, bracketed paint and
special-edition pretty labels when present, bracketed full certification
string when present) joined with single spaces. -/
def str (it : InventoryItem) : String :=
  joinSpace
    ([it.slot.value ++ ":", it.item_name, "[" ++ it.quality.pretty ++ "]"]
      ++ (match it.paint with
          | some p => ["[" ++ p.pretty ++ "]"]
          | none => [])
      ++ (match it.special_edition with
          | some se => ["[" ++ se.pretty ++ "]"]
          | none => [])
      ++ (match it.certification with
          | some c => ["[" ++ c.full_str ++ "]"]
          | none => []))

end InventoryItem

/-! ### RCON client (`client.py`, `util.py`, `exceptions.py`) -/

/-- Escape every backslash: `s.replace('\\', '\\\\')`. -/
def escapeBackslashes : List Char → List Char
  | [] => []
  | c :: cs =>
    if c = '\\' then '\\' :: '\\' :: escapeBackslashes cs
    else c :: escapeBackslashes cs

/-- Escape every double quote: `s.replace('"', '\\"')`. -/
def escapeQuotes : List Char → List Char
  | [] => []
  | c :: cs =>
    if c = '"' then '\\' :: '"' :: escapeQuotes cs
    else c :: escapeQuotes cs

/-- `quote_arg` (`util.py`): escape backslashes, then double quotes, then wrap
in double quotes. -/
def quote_arg (s : String) : String :=
  "\"" ++ String.mk (escapeQuotes (escapeBackslashes s.data)) ++ "\""

/-- Error taxonomy of `exceptions.py` relevant to the session primitives. -/
inductive RconError
  | notConnected
  | authenticationFailure
deriving DecidableEq, Repr

/-- The WebSocket connection as the client uses it for one exchange: a
response for each sent command line (`send` then `recv`). -/
def Conn := String → String

/-- The connection state of `BakkesRconClient`: the `ws` attribute, `None`
until `connect` succeeded. -/
structure ClientState where
  ws : Option Conn

/-- `BakkesRconClient.request`: fails with `NotConnectedError` when `ws` is
`None`; otherwise joins the command with the quoted arguments by single
spaces, sends it, and returns the received response. -/
def request (st : ClientState) (cmd : String) (args : List String) :
    Except RconError String :=
  match st.ws with
  | none => .error .notConnected
  | some conn => .ok (conn (joinSpace (cmd :: args.map quote_arg)))

/-- `BakkesRconClient.authenticate`: sends `rcon_password` with the quoted
password and fails with `AuthenticationError` unless the response is the
literal `authyes`. -/
def authenticate (st : ClientState) (password : String) : Except RconError Unit :=
  match request st "rcon_password" [password] with
  | .error e => .error e
  | .ok res => if res = "authyes" then .ok () else .error .authenticationFailure

/-- The session phases of the specification's state machine. -/
inductive SessionPhase
  | disconnected
  | connectedUnauthenticated
  | ready
deriving DecidableEq, Repr

/-- Session phase reached after running `authenticate` on a connected client:
`__aenter__` reaches the usable (Ready) session only when `authenticate`
returns successfully; an exception leaves the session unusable. -/
def phaseAfterAuthenticate (st : ClientState) (password : String) : SessionPhase :=
  match authenticate st password with
  | .ok _ => .ready
  | .error _ => .connectedUnauthenticated

/-! ### Specification-side definitions

These definitions follow the specification's words, not the source, and exist
only to be compared with the source-derived definitions above. -/

/-- Rank of each `Quality` value in the sequence the specification writes:
`Common(0) < Uncommon(1) < ... < Limited(8) < Legacy(9)`. -/
def claimRank : Quality → Nat
  | .COMMON => 0
  | .UNCOMMON => 1
  | .RARE => 2
  | .VERY_RARE => 3
  | .IMPORT => 4
  | .EXOTIC => 5
  | .BLACK_MARKET => 6
  | .PREMIUM => 7
  | .LIMITED => 8
  | .LEGACY => 9

/-- The certification description as the specification's display contract
describes it, amended for the level-10 case: level name and tag, a colon, the
value and the pretty type — with the tag omitted at level 10, where the level
name stands alone. -/
def certDescriptionSpec (c : Certification) : String :=
  if c.level = 10 then
    c.level_name ++ ": " ++ toString c.value ++ " " ++ c.type.pretty
  else
    c.level_name ++ " " ++ c.tag ++ ": " ++ toString c.value ++ " " ++ c.type.pretty

/-- The display string as the specification's display contract describes it:
the base `"slot: item_name [quality.pretty]"`, then a bracketed pretty label
for paint and for special edition when present, then the bracketed
certification description when present, each joined on with a single space. -/
def displaySpec (it : InventoryItem) : String :=
  let base := it.slot.value ++ ": " ++ it.item_name ++ " [" ++ it.quality.pretty ++ "]"
  let withPaint :=
    match it.paint with
    | some p => base ++ " [" ++ p.pretty ++ "]"
    | none => base
  let withSpecial :=
    match it.special_edition with
    | some se => withPaint ++ " [" ++ se.pretty ++ "]"
    | none => withPaint
  match it.certification with
  | some c => withSpecial ++ " [" ++ certDescriptionSpec c ++ "]"
  | none => withSpecial

/-! ### Concrete raw records used by the concrete theorems -/

/-- A well-formed raw wire record (all sixteen schema fields) carrying the
sentinel values `paint: "none"`, `blueprint_item_id: 0`, `tradeable: "true"`
and no certification. -/
def sampleRawRecord : RawRecord :=
  [("product_id", .int 42), ("name", .str "Octane"), ("slot", .str "Body"),
   ("paint", .str "none"), ("certification", .str "none"),
   ("certification_value", .int 0), ("rank_label", .str "none"),
   ("quality", .str "Rare"), ("crate", .str ""), ("amount", .int 1),
   ("instance_id", .int 0), ("special_edition", .str "none"),
   ("blueprint_item_id", .int 0), ("blueprint_item", .str ""),
   ("blueprint_cost", .int 0), ("tradeable", .str "true")]

/-- A well-formed raw wire record carrying a `Saves` certification with value
9000, which sits at level 10. -/
def certifiedRawRecord : RawRecord :=
  [("product_id", .int 42), ("name", .str "Octane"), ("slot", .str "Body"),
   ("paint", .str "none"), ("certification", .str "Saves"),
   ("certification_value", .int 9000), ("rank_label", .str "none"),
   ("quality", .str "Rare"), ("crate", .str ""), ("amount", .int 1),
   ("instance_id", .int 0), ("special_edition", .str "none"),
   ("blueprint_item_id", .int 0), ("blueprint_item", .str ""),
   ("blueprint_cost", .int 0), ("tradeable", .str "true")]

/-! ### Helper lemmas about the level search -/

/-- A found index comes from the scanned list. -/
theorem firstMatch_mem (v : Int) (l : List (Nat × Int)) (a : Nat)
    (h : firstMatch v l = some a) : ∃ lb, (a, lb) ∈ l := by
  induction l with
  | nil => simp [firstMatch] at h
  | cons hd tl ih =>
    obtain ⟨n, lb⟩ := hd
    rw [firstMatch] at h
    by_cases hb : lb ≤ v
    · rw [if_pos hb] at h
      injection h with h
      exact ⟨lb, by rw [h]; exact List.mem_cons_self _ _⟩
    · rw [if_neg hb] at h
      obtain ⟨lb', hmem⟩ := ih h
      exact ⟨lb', List.mem_cons_of_mem _ hmem⟩

/-- On a list whose indices are descending, the found index is monotone in the
scanned value: a larger value matches at the same entry or an earlier one,
whose index is at least as large. -/
theorem firstMatch_mono (l : List (Nat × Int))
    (hsort : l.Pairwise (fun p q => q.1 ≤ p.1)) (v1 v2 : Int) (h12 : v1 ≤ v2)
    (a1 a2 : Nat) (h1 : firstMatch v1 l = some a1)
    (h2 : firstMatch v2 l = some a2) : a1 ≤ a2 := by
  induction l with
  | nil => simp [firstMatch] at h1
  | cons hd tl ih =>
    obtain ⟨n, lb⟩ := hd
    rw [firstMatch] at h1 h2
    rw [List.pairwise_cons] at hsort
    by_cases hb1 : lb ≤ v1
    · rw [if_pos hb1] at h1
      rw [if_pos (le_trans hb1 h12)] at h2
      injection h1 with h1
      injection h2 with h2
      omega
    · rw [if_neg hb1] at h1
      by_cases hb2 : lb ≤ v2
      · rw [if_pos hb2] at h2
        injection h2 with h2
        obtain ⟨lb', hmem⟩ := firstMatch_mem v1 tl a1 h1
        have := hsort.1 (a1, lb') hmem
        omega
      · rw [if_neg hb2] at h2
        exact ih hsort.2 h1 h2

/-- The scan succeeds as soon as some entry's lower bound is at most the
value. -/
theorem firstMatch_total (v : Int) (l : List (Nat × Int))
    (h : ∃ p ∈ l, p.2 ≤ v) : ∃ a, firstMatch v l = some a := by
  induction l with
  | nil => simp at h
  | cons hd tl ih =>
    obtain ⟨n, lb⟩ := hd
    rw [firstMatch]
    by_cases hb : lb ≤ v
    · exact ⟨n, if_pos hb⟩
    · rw [if_neg hb]
      obtain ⟨p, hp, hple⟩ := h
      rcases List.mem_cons.mp hp with heq | hmem
      · rw [heq] at hple
        exact absurd hple hb
      · exact ih ⟨p, hmem, hple⟩

/-- The scan fails on a negative value when every lower bound is
non-negative. -/
theorem firstMatch_neg (v : Int) (l : List (Nat × Int))
    (hpos : ∀ p ∈ l, 0 ≤ p.2) (hv : v < 0) : firstMatch v l = none := by
  induction l with
  | nil => rfl
  | cons hd tl ih =>
    obtain ⟨n, lb⟩ := hd
    rw [firstMatch]
    have h0 : (0 : Int) ≤ lb := hpos (n, lb) (List.mem_cons_self _ _)
    rw [if_neg (by omega)]
    exact ih (fun p hp => hpos p (List.mem_cons_of_mem _ hp))

/-- The reversed-enumeration scan list of every certification table has
descending indices, all at most 9, with non-negative lower bounds, and
contains the entry `(0, 0)`. -/
theorem certTable_facts (t : CertificationType) :
    ((CERTIFICATION_LEVELS t).enum.reverse.Pairwise (fun p q => q.1 ≤ p.1)) ∧
    (∀ p ∈ (CERTIFICATION_LEVELS t).enum.reverse, p.1 ≤ 9 ∧ 0 ≤ p.2) ∧
    ((0, (0 : Int)) ∈ (CERTIFICATION_LEVELS t).enum.reverse) := by
  cases t <;> exact ⟨by decide, by decide, by decide⟩

/-- The level of a constructed certification is the found index plus one. -/
theorem certLevel_eq_map (t : CertificationType) (v : Int) :
    certLevel t v = (levelIdx (CERTIFICATION_LEVELS t) v).map (fun a => a + 1) := by
  cases h : levelIdx (CERTIFICATION_LEVELS t) v <;>
    simp [certLevel, Certification.make, h]

/-! ### Claim theorems -/

/-- C2: for every pair of Quality values the order relation matches the
declaration sequence Common < Uncommon < Rare < VeryRare < Import < Exotic <
BlackMarket < Premium < Limited < Legacy, and integer conversion yields
0,...,9 in that same sequence. -/
theorem quality_order_and_int_conversion :
    (∀ q : Quality, Quality.toInt q = claimRank q) ∧
    (∀ a b : Quality, Quality.lt a b = true ↔ claimRank a < claimRank b) := by
  decide

/-- C5 counterexample: `CertificationType` has fifteen members, not the
fourteen the claim states. -/
theorem certification_type_not_fourteen_members :
    Fintype.card CertificationType = 15 ∧ Fintype.card CertificationType ≠ 14 := by
  decide

/-- C5 amended: `CertificationType` is a closed enumeration with exactly 15
members; construction from any string outside their wire values fails. -/
theorem certification_type_closed_fifteen :
    Fintype.card CertificationType = 15 ∧
    ∀ s : String, (∀ t : CertificationType, t.value ≠ s) →
      CertificationType.fromString s = none := by
  refine ⟨by decide, fun s h => ?_⟩
  unfold CertificationType.fromString
  rw [List.find?_eq_none]
  intro t ht
  simp [h t]

/-- Witness for the C5 theorem at the concrete string "Bogus". -/
theorem certification_type_closed_fifteen_witness :
    CertificationType.fromString "Bogus" = none :=
  certification_type_closed_fifteen.2 "Bogus" (by decide)

/-- C8: every member of every domain enumeration round-trips through its
canonical wire value, and the alternate Quality wire strings resolve to the
same values as their canonical forms. -/
theorem enum_wire_round_trip :
    (∀ q : Quality, Quality.fromString q.value = some q) ∧
    (∀ x : Slot, Slot.fromString x.value = some x) ∧
    (∀ x : Paint, Paint.fromString x.value = some x) ∧
    (∀ x : CertificationType, CertificationType.fromString x.value = some x) ∧
    (∀ x : SpecialEdition, SpecialEdition.fromString x.value = some x) ∧
    Quality.fromString "BlackMarket" = some Quality.BLACK_MARKET ∧
    Quality.fromString "Black market" = some Quality.BLACK_MARKET ∧
    Quality.fromString "VeryRare" = some Quality.VERY_RARE ∧
    Quality.fromString "Very rare" = some Quality.VERY_RARE := by
  decide

/-- C4: for every certification type and non-negative value the level lookup
always finds a match — the index-0 threshold of every table is 0 — and the
resulting level lies between 1 and 10. -/
theorem certification_level_lookup_total :
    (∀ t : CertificationType, (CERTIFICATION_LEVELS t).getD 0 0 = 0) ∧
    ∀ (t : CertificationType) (v : Int), 0 ≤ v →
      ∃ l, certLevel t v = some l ∧ 1 ≤ l ∧ l ≤ 10 := by
  refine ⟨by decide, fun t v hv => ?_⟩
  obtain ⟨hsort, hbound, hmem⟩ := certTable_facts t
  obtain ⟨a, ha⟩ := firstMatch_total v _ ⟨(0, 0), hmem, hv⟩
  have ha9 : a ≤ 9 := by
    obtain ⟨lb, hlb⟩ := firstMatch_mem v _ a ha
    exact (hbound _ hlb).1
  refine ⟨a + 1, ?_, by omega, by omega⟩
  rw [certLevel_eq_map]
  rw [show levelIdx (CERTIFICATION_LEVELS t) v = some a from ha]
  rfl

/-- Witness for the C4 theorem at the concrete input (GOALS, 0). -/
theorem certification_level_lookup_total_witness :
    ∃ l, certLevel CertificationType.GOALS 0 = some l ∧ 1 ≤ l ∧ l ≤ 10 :=
  certification_level_lookup_total.2 CertificationType.GOALS 0 (by decide)

/-- C3: certification level is monotone non-decreasing in the value; a value
exactly equal to a table threshold yields that threshold's level, and a value
one less than a threshold (at index at least 1) yields the prior level. -/
theorem certification_level_monotone_and_threshold_exact :
    (∀ (t : CertificationType) (v1 v2 : Int) (l1 l2 : Nat), 0 ≤ v1 → v1 ≤ v2 →
        certLevel t v1 = some l1 → certLevel t v2 = some l2 → l1 ≤ l2) ∧
    (∀ (t : CertificationType) (i : Fin 10),
        certLevel t ((CERTIFICATION_LEVELS t).getD i 0) = some (i.val + 1)) ∧
    (∀ (t : CertificationType) (i : Fin 10), 1 ≤ i.val →
        certLevel t ((CERTIFICATION_LEVELS t).getD i 0 - 1) = some i.val) := by
  refine ⟨?_, by decide, by decide⟩
  intro t v1 v2 l1 l2 h0 h12 h1 h2
  rw [certLevel_eq_map] at h1 h2
  obtain ⟨a1, ha1, hl1⟩ := Option.map_eq_some'.mp h1
  obtain ⟨a2, ha2, hl2⟩ := Option.map_eq_some'.mp h2
  have := firstMatch_mono _ (certTable_facts t).1 v1 v2 h12 a1 a2 ha1 ha2
  omega

/-- Witness for the C3 theorem: monotonicity applied at (SAVES, 3, 7) and the
prior-level clause applied at threshold index 1 of the SAVES table. -/
theorem certification_level_monotone_witness :
    (1 : Nat) ≤ 1 ∧ certLevel CertificationType.SAVES 24 = some 1 :=
  ⟨certification_level_monotone_and_threshold_exact.1 CertificationType.SAVES
      3 7 1 1 (by decide) (by decide) (by decide) (by decide),
   certification_level_monotone_and_threshold_exact.2.2 CertificationType.SAVES
      1 (by decide)⟩

/-- C10: for every certification type and negative value, constructing a
certification fails (the level search finds no threshold at or below the
value); no certification carrying a level is produced. -/
theorem certification_negative_value_fails :
    ∀ (t : CertificationType) (v : Int), v < 0 → Certification.make t v = none := by
  intro t v hv
  obtain ⟨hsort, hbound, hmem⟩ := certTable_facts t
  have h : levelIdx (CERTIFICATION_LEVELS t) v = none :=
    firstMatch_neg v _ (fun p hp => (hbound p hp).2) hv
  simp [Certification.make, h]

/-- Witness for the C10 theorem at the concrete input (MVPS, -1). -/
theorem certification_negative_value_fails_witness :
    Certification.make CertificationType.MVPS (-1) = none :=
  certification_negative_value_fails CertificationType.MVPS (-1) (by decide)

/-- C6: the tradeable token maps to true exactly on the literal "true" (any
other token yields false), "none" yields an absent optional string, a zero
blueprint id yields an absent id, and decoding the sample record yields an
item with paint absent, blueprint_item_id absent, and tradeable true. -/
theorem raw_transforms_and_decode :
    (∀ s : String, s ≠ "true" → transform_raw_bool s = false) ∧
    transform_raw_bool "true" = true ∧
    transform_raw_optional_str "none" = none ∧
    none_if_zero 0 = none ∧
    (from_raw_item sampleRawRecord).map
        (fun it => (it.paint, it.blueprint_item_id, it.tradeable)) =
      some (none, none, true) := by
  refine ⟨fun s h => ?_, rfl, rfl, rfl, by decide⟩
  unfold transform_raw_bool
  rw [if_neg h]

/-- Witness for the C6 theorem at the concrete token "false". -/
theorem raw_transforms_and_decode_witness :
    transform_raw_bool "false" = false :=
  raw_transforms_and_decode.1 "false" (by decide)

/-- C7: a request with no connection fails with NotConnected for every
command and argument list; authenticate fails with AuthenticationFailure
whenever the response differs from the literal "authyes", and the session is
then not in the Ready state. -/
theorem request_notconnected_and_auth_failure :
    (∀ (cmd : String) (args : List String),
        request ⟨none⟩ cmd args = Except.error RconError.notConnected) ∧
    ∀ (conn : Conn) (password res : String),
      request ⟨some conn⟩ "rcon_password" [password] = Except.ok res →
      res ≠ "authyes" →
      authenticate ⟨some conn⟩ password
          = Except.error RconError.authenticationFailure ∧
      phaseAfterAuthenticate ⟨some conn⟩ password ≠ SessionPhase.ready := by
  refine ⟨fun cmd args => rfl, fun conn password res hreq hres => ?_⟩
  have hauth : authenticate ⟨some conn⟩ password
      = Except.error RconError.authenticationFailure := by
    unfold authenticate
    rw [hreq]
    exact if_neg hres
  refine ⟨hauth, ?_⟩
  unfold phaseAfterAuthenticate
  rw [hauth]
  decide

/-- Witness for the C7 theorem on a connection that always answers
"authno". -/
theorem request_notconnected_and_auth_failure_witness :
    request ⟨none⟩ "ws_inventory" ["json", "aaaa"]
        = Except.error RconError.notConnected ∧
    authenticate ⟨some fun _ => "authno"⟩ "password"
        = Except.error RconError.authenticationFailure ∧
    phaseAfterAuthenticate ⟨some fun _ => "authno"⟩ "password"
        ≠ SessionPhase.ready :=
  ⟨request_notconnected_and_auth_failure.1 "ws_inventory" ["json", "aaaa"],
   request_notconnected_and_auth_failure.2 (fun _ => "authno") "password"
     "authno" rfl (by decide)⟩

/-- Applying the per-field transforms does not change the key list of a raw
record. -/
theorem transform_preserves_keys (record : RawRecord) :
    (record.map (fun kv => (kv.1, applyTransform kv.1 kv.2))).map Prod.fst =
      record.map Prod.fst := by
  induction record with
  | nil => rfl
  | cons kv rest ih => simp [ih]

/-- C9: decoding requires every one of the sixteen fields to be present — a
record missing any parameter fails, and a record with a key outside the
parameter list fails. -/
theorem decode_requires_exact_field_set :
    (∀ (record : RawRecord) (p : String), p ∈ INIT_PARAM_NAMES →
        p ∉ record.map Prod.fst → from_raw_item record = none) ∧
    ∀ (record : RawRecord) (k : String), k ∈ record.map Prod.fst →
      k ∉ INIT_PARAM_NAMES → from_raw_item record = none := by
  constructor
  · intro record p hp hnot
    have h0 : (record.map Prod.fst).count p = 0 := List.count_eq_zero.mpr hnot
    cases hok : kwargsOk (record.map (fun kv => (kv.1, applyTransform kv.1 kv.2))) with
    | false => simp [from_raw_item, hok]
    | true =>
      exfalso
      unfold kwargsOk at hok
      rw [Bool.and_eq_true] at hok
      have h1 : ((record.map (fun kv => (kv.1, applyTransform kv.1 kv.2))).map
          Prod.fst).count p = 1 := by
        simpa using List.all_eq_true.mp hok.1 p hp
      rw [transform_preserves_keys] at h1
      omega
  · intro record k hk hnot
    cases hok : kwargsOk (record.map (fun kv => (kv.1, applyTransform kv.1 kv.2))) with
    | false => simp [from_raw_item, hok]
    | true =>
      exfalso
      unfold kwargsOk at hok
      rw [Bool.and_eq_true] at hok
      obtain ⟨kv, hkv, hfst⟩ := List.mem_map.mp hk
      have hmem2 : (kv.1, applyTransform kv.1 kv.2) ∈
          record.map (fun kv => (kv.1, applyTransform kv.1 kv.2)) :=
        List.mem_map_of_mem _ hkv
      have h2 : kv.1 ∈ INIT_PARAM_NAMES := by
        simpa using List.all_eq_true.mp hok.2 _ hmem2
      rw [hfst] at h2
      exact hnot h2

/-- Witness for the C9 theorem: a record with only one field fails, and the
sample record with an extra unrecognized field fails. -/
theorem decode_requires_exact_field_set_witness :
    from_raw_item [("product_id", RawValue.int 1)] = none ∧
    from_raw_item (("extra_field", RawValue.int 7) :: sampleRawRecord) = none :=
  ⟨decode_requires_exact_field_set.1 [("product_id", RawValue.int 1)] "name"
      (by decide) (by decide),
   decode_requires_exact_field_set.2
      (("extra_field", RawValue.int 7) :: sampleRawRecord) "extra_field"
      (by decide) (by decide)⟩

/-- Merging the join separator into a following literal: a colon followed by
the separator space. -/
theorem append_colon_space (x : String) : ":" ++ (" " ++ x) = ": " ++ x := by
  rw [← String.append_assoc, show ":" ++ " " = ": " from rfl]

/-- Merging the join separator into a following literal: the separator space
followed by an opening bracket. -/
theorem append_space_bracket (x : String) : " " ++ ("[" ++ x) = " [" ++ x := by
  rw [← String.append_assoc, show " " ++ "[" = " [" from rfl]

/-- The full certification string of the source equals the specification's
certification description, amended at level 10. -/
theorem full_str_eq_spec (c : Certification) : c.full_str = certDescriptionSpec c := by
  unfold Certification.full_str Certification.str certDescriptionSpec
  split_ifs <;> rfl

/-- C1 counterexample: the item decoded from the level-10 certified record
displays the certification as "Immovable Object: 9000 Saves" — the tag
"Goalkeeper" is dropped at level 10, so the claimed uniform format
"level_name tag: value type" does not hold at level 10. -/
theorem display_certification_level10_counterexample :
    (from_raw_item certifiedRawRecord).map InventoryItem.str =
      some "Body: Octane [Rare] [Immovable Object: 9000 Saves]" ∧
    (from_raw_item certifiedRawRecord).map InventoryItem.str ≠
      some "Body: Octane [Rare] [Immovable Object Goalkeeper: 9000 Saves]" := by
  decide

/-- C1 amended: for every InventoryItem, the display string composes
"slot: item_name [quality.pretty]", a bracketed pretty label for paint and
for special edition when present, and a bracketed certification description
"level_name tag: value type.pretty" when present — except that at level 10
the tag is omitted and the level name stands alone — all joined by single
spaces. -/
theorem display_matches_spec_composition (it : InventoryItem) :
    InventoryItem.str it = displaySpec it := by
  obtain ⟨pid, nm, slot, paint, cert, cv, rl, q, crate, amt, iid, se, bid,
    bitem, bcost, trd⟩ := it
  cases paint <;> cases se <;> cases cert <;>
    simp only [InventoryItem.str, displaySpec, joinSpace, List.cons_append,
      List.nil_append, full_str_eq_spec, String.append_assoc,
      append_colon_space, append_space_bracket]

end BakkesRcon
